import Mathlib

/-!
Verification of the umami-prometheus-exporter refresh engine: a shallow
embedding of the Umami API client (`internal/umami/client.go`), the updater
cycle (`internal/updater/updater.go`), and the health endpoint
(`internal/server/server.go`), with theorems about the claims of the
specification.
-/

namespace UmamiExporter

/-! ## JSON values, as produced by `json.Unmarshal` into `interface{}`

Objects are modelled as association lists (Go maps have unique keys);
`other` stands for numbers, booleans and null, which `findToken` ignores. -/

/-- Whitespace as trimmed by Go's `strings.TrimSpace` (the ASCII cases; the
token strings of the claims contain no exotic Unicode space). -/
def isSpaceChar (c : Char) : Bool :=
  c == ' ' || c == '\t' || c == '\n' || c == '\r' || c == '\x0b' || c == '\x0c'

/-- `strings.TrimSpace`: leading and trailing whitespace removed. -/
def trimSpace (s : String) : String :=
  String.mk (((s.data.dropWhile isSpaceChar).reverse.dropWhile isSpaceChar).reverse)

inductive Json where
  | str (s : String) : Json
  | obj (fields : List (String × Json)) : Json
  | arr (items : List Json) : Json
  | other : Json

/-- The token field names tried by `findToken` (client.go:128), in order,
including the source's duplicated "access_token". -/
def tokenKeys : List String := ["token", "accessToken", "access_token", "jwt", "access_token"]

/-- One iteration of the direct-key loop of `findToken` (client.go:135-141):
the key must be present and its value a non-empty string (not trimmed). -/
def keyHit (fields : List (String × Json)) (k : String) : Option String :=
  match fields.lookup k with
  | some (Json.str s) => if s = "" then none else some s
  | _ => none

mutual

/-- `findToken` (client.go:127-156): a trimmed non-empty string leaf is a
token; in an object, the conventional keys are tried first, then every
value is searched recursively; arrays are searched element-wise. -/
def findToken : Json → Option String
  | Json.str t => if trimSpace t = "" then none else some (trimSpace t)
  | Json.obj fields =>
      match tokenKeys.findSome? (keyHit fields) with
      | some s => some s
      | none => findTokenFields fields
  | Json.arr items => findTokenItems items
  | Json.other => none

/-- The nested-map search loop of `findToken` (client.go:143-147). -/
def findTokenFields : List (String × Json) → Option String
  | [] => none
  | (_, v) :: rest =>
      match findToken v with
      | some s => some s
      | none => findTokenFields rest

/-- The array search loop of `findToken` (client.go:148-153). -/
def findTokenItems : List Json → Option String
  | [] => none
  | v :: rest =>
      match findToken v with
      | some s => some s
      | none => findTokenItems rest

end

/-! ## Login (client.go:74-124) -/

inductive LoginResult where
  | ok (token : String)
  | errStatus (code : Nat)
  | errDecode
  | errNoToken
  deriving Repr, DecidableEq

/-- The observable input of one `Login` round-trip: the HTTP status of the
response, the result of `json.Unmarshal` on the body (`none` when the body
is not valid JSON), and the raw body used by the fallback. -/
structure LoginInput where
  status : Nat
  parsed : Option Json
  rawBody : String

/-- `Login` (client.go:74-124): a status of 400 or above fails; otherwise
a JSON body is searched with `findToken`, and a non-JSON body is accepted
as a raw token when its trimmed form is non-empty. -/
def loginOutcome (inp : LoginInput) : LoginResult :=
  if 400 ≤ inp.status then LoginResult.errStatus inp.status
  else
    match inp.parsed with
    | none =>
        let t := trimSpace inp.rawBody
        if t = "" then LoginResult.errDecode else LoginResult.ok t
    | some j =>
        match findToken j with
        | some t => LoginResult.ok t
        | none => LoginResult.errNoToken

/-- Effect of `Login` on the cached token `c.token`: replaced on success
(client.go:107-110, 117-119), untouched on every failure path. -/
def loginApply (token : String) (inp : LoginInput) : String × LoginResult :=
  match loginOutcome inp with
  | LoginResult.ok t => (t, LoginResult.ok t)
  | r => (token, r)

def isOkResult : LoginResult → Bool
  | LoginResult.ok _ => true
  | _ => false

/-! ## doRequest (client.go:171-248)

The network is modelled as an oracle: `loginInp n` is the response seen by
the n-th `Login` call made inside this `doRequest`, `attempt n` is the
outcome of the n-th `httpClient.Do` of the main request (`none` = transport
error), and `decodeOk n` says whether decoding the n-th response body into
the caller's result shape succeeds. -/

inductive ReqError where
  | authFailed
  | transport
  | statusError (code : Nat)
  | decodeError
  deriving Repr, DecidableEq

structure ReqEnv where
  loginInp : Nat → LoginInput
  attempt : Nat → Option Nat
  decodeOk : Nat → Bool
  wantResult : Bool

/-- Observable trace of one `doRequest` call: how many logins `ensureToken`
made, how many 401-triggered re-logins, how many times the request itself
was sent, which bearer token the retry carried, the cached token afterwards
and the returned value. -/
structure ReqTrace where
  ensureLogins : Nat
  reLogins : Nat
  attempts : Nat
  tokenUsedOnRetry : Option String
  finalToken : String
  result : Except ReqError Unit
  deriving Repr

/-- Decoding step shared by both exits of `doRequest` (client.go:236-247):
status 400 and above is a request error, otherwise the body is decoded
when a result was asked for. -/
def finishRequest (attemptIdx : Nat) (status : Nat) (env : ReqEnv) : Except ReqError Unit :=
  if 400 ≤ status then Except.error (ReqError.statusError status)
  else if env.wantResult && !(env.decodeOk attemptIdx) then Except.error ReqError.decodeError
  else Except.ok ()

/-- `doRequest` (client.go:171-248): ensure a token (login when none is
cached), send the request, and on a 401 response login once more and
resend the same request exactly once; everything after the retry goes
through the normal status/decode handling. -/
def doRequestModel (token0 : String) (env : ReqEnv) : ReqTrace :=
  let ensureCount := if token0 = "" then 1 else 0
  let ensure : String × Bool :=
    if token0 = "" then
      match loginOutcome (env.loginInp 0) with
      | LoginResult.ok t => (t, true)
      | _ => (token0, false)
    else (token0, true)
  if ensure.2 = false then
    { ensureLogins := ensureCount, reLogins := 0, attempts := 0,
      tokenUsedOnRetry := none, finalToken := ensure.1,
      result := Except.error ReqError.authFailed }
  else
    match env.attempt 0 with
    | none =>
        { ensureLogins := ensureCount, reLogins := 0, attempts := 1,
          tokenUsedOnRetry := none, finalToken := ensure.1,
          result := Except.error ReqError.transport }
    | some s0 =>
        if s0 = 401 then
          match loginOutcome (env.loginInp ensureCount) with
          | LoginResult.ok t =>
              match env.attempt 1 with
              | none =>
                  { ensureLogins := ensureCount, reLogins := 1, attempts := 2,
                    tokenUsedOnRetry := some t, finalToken := t,
                    result := Except.error ReqError.transport }
              | some s1 =>
                  { ensureLogins := ensureCount, reLogins := 1, attempts := 2,
                    tokenUsedOnRetry := some t, finalToken := t,
                    result := finishRequest 1 s1 env }
          | _ =>
              { ensureLogins := ensureCount, reLogins := 1, attempts := 1,
                tokenUsedOnRetry := none, finalToken := ensure.1,
                result := Except.error ReqError.authFailed }
        else
          { ensureLogins := ensureCount, reLogins := 0, attempts := 1,
            tokenUsedOnRetry := none, finalToken := ensure.1,
            result := finishRequest 0 s0 env }

/-! ## Data model of the updater (updater.go, client.go:44-69) -/

structure Website where
  id : String
  name : String
  domain : String
  deriving Repr, DecidableEq

structure StatValue where
  value : Int
  prev : Int
  deriving Repr, DecidableEq

structure WebsiteStats where
  pageviews : StatValue
  visitors : StatValue
  visits : StatValue
  bounces : StatValue
  totaltime : StatValue
  deriving Repr, DecidableEq

structure MetricEntry where
  x : String
  y : Int
  deriving Repr, DecidableEq

/-- The (website_id, name, domain) label tuple shared by all per-website
gauge families (metrics.go). -/
structure SiteLabels where
  websiteId : String
  name : String
  domain : String
  deriving Repr, DecidableEq

/-- Label tuple of the `umami_metric_value` family: site labels plus the
metric type and the entry's value label (metrics.go). -/
structure SeriesKey where
  site : SiteLabels
  typ : String
  value : String
  deriving Repr, DecidableEq

/-- A Prometheus GaugeVec modelled as an association list from label tuple
to the last value set; `Set` replaces the value for that tuple. -/
def gaugeSet {α : Type} [DecidableEq α] (m : List (α × Int)) (k : α) (v : Int) :
    List (α × Int) :=
  (k, v) :: m.filter (fun p => !(p.1 == k))

/-- The metric sink: the two scalar gauges plus the seven per-entity
families registered in metrics.go. -/
structure Sink where
  fetchSuccess : Int
  lastFetch : Int
  pageviews : List (SiteLabels × Int)
  visitors : List (SiteLabels × Int)
  visits : List (SiteLabels × Int)
  bounces : List (SiteLabels × Int)
  totaltime : List (SiteLabels × Int)
  active : List (SiteLabels × Int)
  metricValues : List (SeriesKey × Int)
  deriving Repr, DecidableEq

/-- The reset step of a cycle (updater.go:193-204): every per-entity
family is cleared; the scalar gauges are untouched. -/
def resetPerEntity (s : Sink) : Sink :=
  { s with pageviews := [], visitors := [], visits := [], bounces := [],
           totaltime := [], active := [], metricValues := [] }

/-- The externally visible updater state: `lastSuccess` and
`lastFetchUnix` (updater.go:147-148), read by `LastSuccess` and
`LastFetchUnix`. -/
structure UpdaterState where
  lastSuccess : Bool
  lastFetchUnix : Int
  deriving Repr, DecidableEq

/-- Zero value of the updater state before any cycle has completed. -/
def initialUpdaterState : UpdaterState :=
  { lastSuccess := false, lastFetchUnix := 0 }

/-- Inputs of one cycle: the listing result, per-website outcomes of the
stats / active / metrics calls (`none` = that call failed), the point in
the dispatch loop at which `ctx.Done()` is first observed (`none` = never),
and the clock value taken at commit. -/
structure CycleEnv where
  websites : Except Unit (List Website)
  stats : String → Option WebsiteStats
  active : String → Option Int
  series : String → String → Option (List MetricEntry)
  cancelBefore : Option Nat
  now : Int

/-- Empty-label normalisation applied to each series entry
(updater.go:251-254): the value label is trimmed and an empty result is
replaced by the placeholder. -/
def normalizeLabel (x : String) : String :=
  let v := trimSpace x
  if v = "" then "<empty>" else v

/-- The inner entry loop for one metric type (updater.go:250-256). -/
def writeSeries (sink : Sink) (L : SiteLabels) (typ : String)
    (entries : List MetricEntry) : Sink :=
  entries.foldl
    (fun s e =>
      { s with metricValues :=
          gaugeSet s.metricValues ⟨L, typ, normalizeLabel e.x⟩ e.y })
    sink

/-- The label tuple passed to `WithLabelValues` for website `w`. -/
def siteLabelsOf (w : Website) : SiteLabels :=
  { websiteId := w.id, name := w.name, domain := w.domain }

/-- The stats block of one fetch unit (updater.go:225-234): on success the
five summary gauges are set; on error nothing is written. -/
def statsSink (env : CycleEnv) (L : SiteLabels) (wid : String) (sink : Sink) : Sink :=
  match env.stats wid with
  | none => sink
  | some st =>
      { sink with
        pageviews := gaugeSet sink.pageviews L st.pageviews.value
        visitors := gaugeSet sink.visitors L st.visitors.value
        visits := gaugeSet sink.visits L st.visits.value
        bounces := gaugeSet sink.bounces L st.bounces.value
        totaltime := gaugeSet sink.totaltime L st.totaltime.value }

/-- The active-visitors block of one fetch unit (updater.go:237-241). -/
def activeSink (env : CycleEnv) (L : SiteLabels) (wid : String) (sink : Sink) : Sink :=
  match env.active wid with
  | none => sink
  | some v => { sink with active := gaugeSet sink.active L v }

/-- The metric-types loop of one fetch unit (updater.go:244-257): a failed
series call is skipped with `continue`. -/
def fetchSeriesForTypes (env : CycleEnv) (wid : String) (L : SiteLabels)
    (types : List String) (sink : Sink) : Sink :=
  types.foldl
    (fun s typ =>
      match env.series wid typ with
      | none => s
      | some entries => writeSeries s L typ entries)
    sink

/-- One per-website fetch unit (updater.go:220-258): stats, active count
and one series page per configured type; each failed call is skipped
without affecting the rest. -/
def processWebsite (env : CycleEnv) (types : List String) (sink : Sink)
    (w : Website) : Sink :=
  fetchSeriesForTypes env w.id (siteLabelsOf w) types
    (activeSink env (siteLabelsOf w) w.id
      (statsSink env (siteLabelsOf w) w.id sink))

/-- Number of websites actually dispatched before the loop's per-iteration
cancellation check (updater.go:210-215) stops it. -/
def dispatchCount (env : CycleEnv) (n : Nat) : Nat :=
  match env.cancelBefore with
  | some i => min i n
  | none => n

/-- Whether the dispatch loop was aborted by cancellation: the check fires
only at the top of an iteration, so only when entities remain. -/
def cancelledMidDispatch (env : CycleEnv) (n : Nat) : Bool :=
  match env.cancelBefore with
  | some i => decide (i < n)
  | none => false

/-- `fetchAndUpdate` (updater.go:178-274): a listing failure records
failure and returns; otherwise the per-entity families are reset, the
dispatched units run (dispatched units finish even on a cancelled cycle),
and unless the cycle was aborted by cancellation the commit step records
success and the current time unconditionally. -/
def fetchAndUpdate (st : UpdaterState) (sink : Sink) (types : List String)
    (env : CycleEnv) : UpdaterState × Sink :=
  match env.websites with
  | Except.error _ =>
      ({ st with lastSuccess := false }, { sink with fetchSuccess := 0 })
  | Except.ok ws =>
      let sink1 := resetPerEntity sink
      let dispatched := ws.take (dispatchCount env ws.length)
      let sink2 := dispatched.foldl (processWebsite env types) sink1
      if cancelledMidDispatch env ws.length then
        (st, sink2)
      else
        ({ lastSuccess := true, lastFetchUnix := env.now },
         { sink2 with fetchSuccess := 1, lastFetch := env.now })

/-! ## Scheduler (updater.go:277-297)

`Start` runs `fetchAndUpdate` synchronously in a single goroutine: once
immediately, then once per ticker tick until the context is cancelled.
The loop is embedded as the event trace it produces for a run in which
the context is cancelled after `ticks` ticks have fired. -/

inductive SchedEvent where
  | cycleStart (n : Nat)
  | cycleEnd (n : Nat)
  | tick (n : Nat)
  | stopped
  deriving Repr, DecidableEq

/-- `time.Minute` in nanoseconds, the fallback interval (updater.go:282). -/
def nanosPerMinute : Int := 60000000000

/-- Interval actually given to the ticker (updater.go:281-285): the
configured value unless it is non-positive, in which case one minute. -/
def effectiveInterval (interval : Int) : Int :=
  if interval ≤ 0 then nanosPerMinute else interval

/-- The select loop of `Start` (updater.go:288-296): each tick is followed
by a full synchronous cycle; the `ctx.Done` arm ends the loop. -/
def schedLoop : Nat → Nat → List SchedEvent
  | 0, _ => [SchedEvent.stopped]
  | Nat.succ m, k =>
      SchedEvent.tick k :: SchedEvent.cycleStart (k + 1) ::
        SchedEvent.cycleEnd (k + 1) :: schedLoop m (k + 1)

/-- Full trace of `Start` (updater.go:277-297): the immediate cycle runs
to completion before the loop begins. -/
def startTrace (ticks : Nat) : List SchedEvent :=
  SchedEvent.cycleStart 0 :: SchedEvent.cycleEnd 0 :: schedLoop ticks 0

/-- A trace has strictly sequential cycles when every cycle's start is
immediately followed by that same cycle's end: no tick and no other
cycle's event falls between them. -/
def sequentialCycles : List SchedEvent → Bool
  | [] => true
  | SchedEvent.cycleStart i :: SchedEvent.cycleEnd j :: rest =>
      i == j && sequentialCycles rest
  | SchedEvent.cycleStart _ :: _ => false
  | SchedEvent.cycleEnd _ :: rest => sequentialCycles rest
  | SchedEvent.tick _ :: rest => sequentialCycles rest
  | SchedEvent.stopped :: rest => sequentialCycles rest

def isCycleStart : SchedEvent → Bool
  | SchedEvent.cycleStart _ => true
  | _ => false

/-- Number of cycles begun in a trace. -/
def cycleCount (tr : List SchedEvent) : Nat :=
  (tr.filter isCycleStart).length

/-! ## Fan-out semaphore (updater.go:206-222, 261)

`sem := make(chan struct{}, concurrency)` with a send before each
goroutine launch and a receive in each goroutine's defer is a counting
semaphore: dispatch is enabled only while fewer than `N` units hold a
slot. The fan-out phase is embedded as a transition system over the
number of pending entities and units in flight. -/

structure FanOutState where
  pending : Nat
  inflight : Nat
  deriving Repr, DecidableEq

/-- One step of the fan-out phase for concurrency limit `N`: dispatching
an entity blocks on the semaphore until fewer than `N` units are in
flight (updater.go:218); a running unit finishing releases its slot
(updater.go:222). -/
inductive FanOutStep (N : Nat) : FanOutState → FanOutState → Prop
  | dispatch (s : FanOutState) (hp : 0 < s.pending) (hn : s.inflight < N) :
      FanOutStep N s { pending := s.pending - 1, inflight := s.inflight + 1 }
  | finish (s : FanOutState) (hf : 0 < s.inflight) :
      FanOutStep N s { s with inflight := s.inflight - 1 }

/-- States reachable during the fan-out phase started on `k` entities
with no unit yet running. -/
inductive FanOutReachable (N : Nat) (k : Nat) : FanOutState → Prop
  | init : FanOutReachable N k { pending := k, inflight := 0 }
  | step (s t : FanOutState) (hs : FanOutReachable N k s)
      (hst : FanOutStep N s t) : FanOutReachable N k t

/-! ## Health endpoint (server.go:23-42) -/

structure HealthBody where
  lastFetch : Int
  success : Bool
  deriving Repr, DecidableEq

/-- The `/healthz` handler (server.go:23-42): read the updater state (zero
values when no updater is wired), answer 503 when the last cycle was not
successful and 200 otherwise, and echo both fields as the JSON body. -/
def healthzHandler (u : Option UpdaterState) : Nat × HealthBody :=
  let last : Int := match u with | none => 0 | some s => s.lastFetchUnix
  let ok : Bool := match u with | none => false | some s => s.lastSuccess
  ((if ok then 200 else 503), { lastFetch := last, success := ok })

/-! ## Spec-side predicate for the login acceptance condition

Written from the specification's words ("a JSON body containing a token
under any of several conventional field names, searched recursively
through nested objects and arrays"), to be compared with the source's
`findToken`: here a token counts only when it sits under one of the
conventional keys of some object, at any nesting depth. -/

mutual

def specHasConvToken : Json → Bool
  | Json.str _ => false
  | Json.obj fields =>
      (tokenKeys.any fun k =>
        match fields.lookup k with
        | some (Json.str s) => !(s == "")
        | _ => false)
      || specHasConvTokenFields fields
  | Json.arr items => specHasConvTokenItems items
  | Json.other => false

def specHasConvTokenFields : List (String × Json) → Bool
  | [] => false
  | (_, v) :: rest => specHasConvToken v || specHasConvTokenFields rest

def specHasConvTokenItems : List Json → Bool
  | [] => false
  | v :: rest => specHasConvToken v || specHasConvTokenItems rest

end

/-! ## Derived sink predicates and concrete inputs used by the witnesses -/

/-- Every published series entry of the `umami_metric_value` family
carries a non-empty value label. -/
def seriesLabelsNonEmpty (sink : Sink) : Prop :=
  ∀ p ∈ sink.metricValues, p.1.value ≠ ""

/-- A request environment in which the upstream answers 401 to every send
of the request and the re-login round-trip succeeds with token "new". -/
def env401 : ReqEnv :=
  { loginInp := fun _ => { status := 200, parsed := none, rawBody := "new" }
    attempt := fun _ => some 401
    decodeOk := fun _ => true
    wantResult := true }

/-- The JSON body `{"foo": "bar"}`: no conventional token field anywhere. -/
def jsonNoConv : Json := Json.obj [("foo", Json.str "bar")]

/-- A login response: HTTP 200 with body `{"foo": "bar"}`. -/
def loginInpNoConv : LoginInput :=
  { status := 200, parsed := some jsonNoConv, rawBody := "" }

/-- A successful login response carrying `{"token": "tk"}`. -/
def loginInpTok : LoginInput :=
  { status := 200, parsed := some (Json.obj [("token", Json.str "tk")]), rawBody := "" }

def website1 : Website := { id := "1", name := "A", domain := "a.com" }

/-- A cycle whose listing call fails. -/
def envListFail : CycleEnv :=
  { websites := Except.error ()
    stats := fun _ => none
    active := fun _ => none
    series := fun _ _ => none
    cancelBefore := none
    now := 1111 }

/-- A cycle that lists one website and in which every per-entity fetch
fails. -/
def envAllFetchFail : CycleEnv :=
  { websites := Except.ok [website1]
    stats := fun _ => none
    active := fun _ => none
    series := fun _ _ => none
    cancelBefore := none
    now := 2222 }

/-- A cycle that lists one website and returns one series entry whose
value label is empty. -/
def envEmptyLabel : CycleEnv :=
  { websites := Except.ok [website1]
    stats := fun _ => none
    active := fun _ => none
    series := fun _ typ => if typ = "url" then some [{ x := "", y := 7 }] else none
    cancelBefore := none
    now := 3333 }

/-- A cycle that lists two websites and is cancelled before the second
one is dispatched. -/
def envCancelled : CycleEnv :=
  { websites := Except.ok [website1, { id := "2", name := "B", domain := "b.com" }]
    stats := fun _ => none
    active := fun _ => none
    series := fun _ _ => none
    cancelBefore := some 1
    now := 4444 }

/-- An arbitrary pre-cycle sink with data from an earlier cycle. -/
def sinkBefore : Sink :=
  { fetchSuccess := 1, lastFetch := 1000
    pageviews := [(siteLabelsOf website1, 10)]
    visitors := [], visits := [], bounces := [], totaltime := []
    active := [(siteLabelsOf website1, 3)]
    metricValues := [({ site := siteLabelsOf website1, typ := "url", value := "/x" }, 7)] }

/-- An updater state left by an earlier successful cycle. -/
def stateBefore : UpdaterState := { lastSuccess := true, lastFetchUnix := 1000 }

/-! ## Helper lemmas -/

theorem normalizeLabel_ne_empty (x : String) : normalizeLabel x ≠ "" := by
  unfold normalizeLabel
  by_cases h : trimSpace x = "" <;> simp [h]

theorem mem_gaugeSet {α : Type} [DecidableEq α] {m : List (α × Int)} {k : α}
    {v : Int} {p : α × Int} (hp : p ∈ gaugeSet m k v) : p = (k, v) ∨ p ∈ m := by
  unfold gaugeSet at hp
  rcases List.mem_cons.mp hp with h | h
  · exact Or.inl h
  · exact Or.inr (List.mem_of_mem_filter h)

theorem writeSeries_labels (entries : List MetricEntry) (s : Sink)
    (L : SiteLabels) (typ : String) (hs : seriesLabelsNonEmpty s) :
    seriesLabelsNonEmpty (writeSeries s L typ entries) := by
  induction entries generalizing s with
  | nil => exact hs
  | cons e rest ih =>
      apply ih
      intro p hp
      rcases mem_gaugeSet hp with h | h
      · rw [h]
        exact normalizeLabel_ne_empty e.x
      · exact hs p h

theorem statsSink_metricValues (env : CycleEnv) (L : SiteLabels)
    (wid : String) (sink : Sink) :
    (statsSink env L wid sink).metricValues = sink.metricValues := by
  unfold statsSink
  split <;> rfl

theorem activeSink_metricValues (env : CycleEnv) (L : SiteLabels)
    (wid : String) (sink : Sink) :
    (activeSink env L wid sink).metricValues = sink.metricValues := by
  unfold activeSink
  split <;> rfl

theorem fetchSeriesForTypes_labels (types : List String) (env : CycleEnv)
    (wid : String) (L : SiteLabels) (s : Sink) (hs : seriesLabelsNonEmpty s) :
    seriesLabelsNonEmpty (fetchSeriesForTypes env wid L types s) := by
  induction types generalizing s with
  | nil => exact hs
  | cons t rest ih =>
      unfold fetchSeriesForTypes at ih ⊢
      rw [List.foldl_cons]
      apply ih
      cases h : env.series wid t with
      | none => simpa only [h] using hs
      | some entries =>
          simp only [h]
          exact writeSeries_labels entries s L t hs

theorem processWebsite_labels (env : CycleEnv) (types : List String)
    (sink : Sink) (w : Website) (hs : seriesLabelsNonEmpty sink) :
    seriesLabelsNonEmpty (processWebsite env types sink w) := by
  unfold processWebsite
  apply fetchSeriesForTypes_labels
  intro p hp
  rw [activeSink_metricValues, statsSink_metricValues] at hp
  exact hs p hp

theorem dispatchFold_labels (ws : List Website) (env : CycleEnv)
    (types : List String) (sink : Sink) (hs : seriesLabelsNonEmpty sink) :
    seriesLabelsNonEmpty (ws.foldl (processWebsite env types) sink) := by
  induction ws generalizing sink with
  | nil => exact hs
  | cons w rest ih =>
      rw [List.foldl_cons]
      exact ih _ (processWebsite_labels env types sink w hs)

theorem resetPerEntity_labels (sink : Sink) :
    seriesLabelsNonEmpty (resetPerEntity sink) := by
  intro p hp
  cases hp

/-! ## Claims -/

/-- C2: when the listing call fails, the cycle records failure and ends at
once: the success flag becomes false, the last-fetch timestamp (both the
stored one and the gauge) keeps its prior value, no per-entity gauge or
series family is reset or written, and the only sink mutation is the
success indicator set to 0. -/
theorem cycle_listing_failure_frame (st : UpdaterState) (sink : Sink)
    (types : List String) (env : CycleEnv)
    (h : env.websites = Except.error ()) :
    (fetchAndUpdate st sink types env).1.lastSuccess = false ∧
    (fetchAndUpdate st sink types env).1.lastFetchUnix = st.lastFetchUnix ∧
    (fetchAndUpdate st sink types env).2.fetchSuccess = 0 ∧
    (fetchAndUpdate st sink types env).2.lastFetch = sink.lastFetch ∧
    (fetchAndUpdate st sink types env).2.pageviews = sink.pageviews ∧
    (fetchAndUpdate st sink types env).2.visitors = sink.visitors ∧
    (fetchAndUpdate st sink types env).2.visits = sink.visits ∧
    (fetchAndUpdate st sink types env).2.bounces = sink.bounces ∧
    (fetchAndUpdate st sink types env).2.totaltime = sink.totaltime ∧
    (fetchAndUpdate st sink types env).2.active = sink.active ∧
    (fetchAndUpdate st sink types env).2.metricValues = sink.metricValues := by
  simp [fetchAndUpdate, h]

/-- Witness for C2 at a concrete failing listing. -/
theorem cycle_listing_failure_frame_witness :
    envListFail.websites = Except.error () ∧
    (fetchAndUpdate stateBefore sinkBefore [] envListFail).1.lastSuccess = false ∧
    (fetchAndUpdate stateBefore sinkBefore [] envListFail).1.lastFetchUnix = 1000 :=
  ⟨rfl,
   (cycle_listing_failure_frame stateBefore sinkBefore [] envListFail rfl).1,
   (cycle_listing_failure_frame stateBefore sinkBefore [] envListFail rfl).2.1⟩

/-- C3: when the listing call succeeds and the dispatch loop is not
aborted by cancellation, the commit step runs unconditionally — the
success flag becomes true and the timestamp becomes the commit-time
clock value — with no hypothesis at all about the outcomes of the
per-entity stats, active or series fetches. -/
theorem cycle_commit_unconditional (st : UpdaterState) (sink : Sink)
    (types : List String) (env : CycleEnv) (ws : List Website)
    (h : env.websites = Except.ok ws)
    (hc : cancelledMidDispatch env ws.length = false) :
    (fetchAndUpdate st sink types env).1.lastSuccess = true ∧
    (fetchAndUpdate st sink types env).1.lastFetchUnix = env.now ∧
    (fetchAndUpdate st sink types env).2.fetchSuccess = 1 ∧
    (fetchAndUpdate st sink types env).2.lastFetch = env.now := by
  simp [fetchAndUpdate, h, hc]

/-- Witness for C3: a cycle in which every per-entity fetch fails still
commits success with the current time. -/
theorem cycle_commit_unconditional_witness :
    envAllFetchFail.websites = Except.ok [website1] ∧
    cancelledMidDispatch envAllFetchFail [website1].length = false ∧
    (fetchAndUpdate initialUpdaterState sinkBefore ["url"] envAllFetchFail).1.lastSuccess
      = true ∧
    (fetchAndUpdate initialUpdaterState sinkBefore ["url"] envAllFetchFail).1.lastFetchUnix
      = 2222 :=
  ⟨rfl, rfl,
   (cycle_commit_unconditional initialUpdaterState sinkBefore ["url"] envAllFetchFail
      [website1] rfl rfl).1,
   (cycle_commit_unconditional initialUpdaterState sinkBefore ["url"] envAllFetchFail
      [website1] rfl rfl).2.1⟩

/-- C10: when the cycle's context is cancelled before all listed entities
were dispatched, `fetchAndUpdate` returns without the commit step, so the
success flag and last-fetch timestamp visible to health reporting are
exactly what they were before the cycle. -/
theorem cycle_cancel_frame (st : UpdaterState) (sink : Sink)
    (types : List String) (env : CycleEnv) (ws : List Website) (i : Nat)
    (h : env.websites = Except.ok ws)
    (hc : env.cancelBefore = some i) (hi : i < ws.length) :
    (fetchAndUpdate st sink types env).1 = st := by
  simp [fetchAndUpdate, h, cancelledMidDispatch, hc, hi]

/-- Witness for C10: a two-website listing cancelled before the second
dispatch leaves the prior success flag and timestamp in place. -/
theorem cycle_cancel_frame_witness :
    envCancelled.cancelBefore = some 1 ∧
    (fetchAndUpdate stateBefore sinkBefore ["url"] envCancelled).1 = stateBefore :=
  ⟨rfl,
   cycle_cancel_frame stateBefore sinkBefore ["url"] envCancelled
     [website1, { id := "2", name := "B", domain := "b.com" }] 1 rfl rfl
     (by decide)⟩

/-- C9: the health handler answers 503 exactly when the stored success
flag is false — in particular in the initial state before any cycle has
completed — and 200 exactly when it is true, and in both cases the body
reports the stored last-fetch timestamp and success flag. -/
theorem healthz_status_policy (s : UpdaterState) :
    ((healthzHandler (some s)).1 = 503 ↔ s.lastSuccess = false) ∧
    ((healthzHandler (some s)).1 = 200 ↔ s.lastSuccess = true) ∧
    (healthzHandler (some s)).2
      = { lastFetch := s.lastFetchUnix, success := s.lastSuccess } ∧
    (healthzHandler (some initialUpdaterState)).1 = 503 := by
  cases hs : s.lastSuccess <;> simp [healthzHandler, hs, initialUpdaterState]

/-- Witness for C9 at a concrete successful state. -/
theorem healthz_status_policy_witness :
    (healthzHandler (some stateBefore)).1 = 200 :=
  ((healthz_status_policy stateBefore).2.1).mpr rfl

/-- C4: an empty value label in a series entry is recorded under the fixed
placeholder `"<empty>"`, and no series entry published by a cycle carries
an empty value label. -/
theorem cycle_series_labels_normalized (st : UpdaterState) (sink : Sink)
    (types : List String) (env : CycleEnv) (ws : List Website)
    (h : env.websites = Except.ok ws) :
    normalizeLabel "" = "<empty>" ∧
    seriesLabelsNonEmpty (fetchAndUpdate st sink types env).2 := by
  constructor
  · rfl
  · have hfold := dispatchFold_labels (ws.take (dispatchCount env ws.length)) env types
      (resetPerEntity sink) (resetPerEntity_labels sink)
    simp only [fetchAndUpdate, h]
    split
    · exact hfold
    · intro p hp
      exact hfold p hp

/-- Witness for C4: a cycle whose only series entry has an empty label
publishes it under the placeholder, and the published family has no empty
label. -/
theorem cycle_series_labels_normalized_witness :
    envEmptyLabel.websites = Except.ok [website1] ∧
    seriesLabelsNonEmpty
      (fetchAndUpdate stateBefore sinkBefore ["url"] envEmptyLabel).2 ∧
    (fetchAndUpdate stateBefore sinkBefore ["url"] envEmptyLabel).2.metricValues
      = [({ site := siteLabelsOf website1, typ := "url", value := "<empty>" }, 7)] :=
  ⟨rfl,
   (cycle_series_labels_normalized stateBefore sinkBefore ["url"] envEmptyLabel
      [website1] rfl).2,
   by decide⟩

/-- C6: the scheduler runs cycles strictly sequentially: in every trace of
the loop, each cycle's start is immediately followed by that cycle's end,
so no tick and no other cycle falls between a cycle's start and its
completion, however many ticks fire. -/
theorem scheduler_cycles_sequential (n : Nat) :
    sequentialCycles (startTrace n) = true := by
  have hloop : ∀ m k, sequentialCycles (schedLoop m k) = true := by
    intro m
    induction m with
    | zero => intro k; rfl
    | succ m ih =>
        intro k
        simp [schedLoop, sequentialCycles, ih]
  simp [startTrace, sequentialCycles, hloop]

/-- C7: the scheduler runs one cycle immediately, before any tick, then
one cycle per tick until cancellation stops the loop; a non-positive
configured interval is replaced by the one-minute default while a
positive one is used as configured. -/
theorem scheduler_start_behaviour (n : Nat) (interval : Int) :
    (startTrace n).head? = some (SchedEvent.cycleStart 0) ∧
    cycleCount (startTrace n) = n + 1 ∧
    (startTrace n).getLast? = some SchedEvent.stopped ∧
    (interval ≤ 0 → effectiveInterval interval = nanosPerMinute) ∧
    (0 < interval → effectiveInterval interval = interval) := by
  have hcount : ∀ m k, cycleCount (schedLoop m k) = m := by
    intro m
    induction m with
    | zero => intro k; rfl
    | succ m ih =>
        intro k
        have h := ih (k + 1)
        simp [cycleCount, List.filter_cons, isCycleStart, schedLoop] at h ⊢
        omega
  have hform : ∀ m k, ∃ l, schedLoop m k = l ++ [SchedEvent.stopped] := by
    intro m
    induction m with
    | zero => intro k; exact ⟨[], rfl⟩
    | succ m ih =>
        intro k
        obtain ⟨l, hl⟩ := ih (k + 1)
        exact ⟨SchedEvent.tick k :: SchedEvent.cycleStart (k + 1) ::
          SchedEvent.cycleEnd (k + 1) :: l, by simp [schedLoop, hl]⟩
  refine ⟨rfl, ?_, ?_, ?_, ?_⟩
  · have h := hcount n 0
    simp [startTrace, cycleCount, List.filter_cons, isCycleStart] at h ⊢
    omega
  · obtain ⟨l, hl⟩ := hform n 0
    have hsplit : startTrace n
        = (SchedEvent.cycleStart 0 :: SchedEvent.cycleEnd 0 :: l)
          ++ [SchedEvent.stopped] := by
      simp [startTrace, hl]
    rw [hsplit, List.getLast?_concat]
  · intro hle
    simp [effectiveInterval, hle]
  · intro hpos
    have hne : ¬ interval ≤ 0 := by omega
    simp [effectiveInterval, hne]

/-- Witness for C7 at two ticks and a non-positive configured interval. -/
theorem scheduler_start_behaviour_witness :
    (startTrace 2).head? = some (SchedEvent.cycleStart 0) ∧
    cycleCount (startTrace 2) = 3 ∧
    effectiveInterval (-5) = nanosPerMinute :=
  ⟨(scheduler_start_behaviour 2 (-5)).1,
   (scheduler_start_behaviour 2 (-5)).2.1,
   (scheduler_start_behaviour 2 (-5)).2.2.2.1 (by omega)⟩

/-- C8: in every state reachable during the fan-out phase over any number
of entities with concurrency limit `N`, at most `N` fetch units hold a
semaphore slot — i.e. are in flight — simultaneously. -/
theorem fanout_inflight_bounded (N k : Nat) (s : FanOutState)
    (h : FanOutReachable N k s) : s.inflight ≤ N := by
  induction h with
  | init => exact Nat.zero_le N
  | step s t hs hst ih =>
      cases hst with
      | dispatch hp hn => exact hn
      | finish hf => exact Nat.le_trans (Nat.sub_le _ _) ih

/-- Witness for C8: after dispatching one of ten entities under limit 5,
the in-flight count is within the bound. -/
theorem fanout_inflight_bounded_witness :
    ({ pending := 9, inflight := 1 } : FanOutState).inflight ≤ 5 :=
  fanout_inflight_bounded 5 10 { pending := 9, inflight := 1 }
    (FanOutReachable.step { pending := 10, inflight := 0 }
      { pending := 9, inflight := 1 } FanOutReachable.init
      (FanOutStep.dispatch { pending := 10, inflight := 0 }
        (by decide) (by decide)))

/-- C1: on an authenticated request whose first send answers 401, exactly
one re-login is made and the request is sent at most twice; when the
re-login succeeds with token `t` the retry is made (attempts = 2) carrying
`t`, with the cached credential replaced by `t` beforehand, and a second
401 on the retry surfaces as a request error; when the re-login fails its
error propagates and no retry is made. -/
theorem doRequest_single_retry_policy (token0 : String) (env : ReqEnv)
    (hens : token0 ≠ "" ∨ isOkResult (loginOutcome (env.loginInp 0)) = true)
    (h401 : env.attempt 0 = some 401) :
    (doRequestModel token0 env).reLogins = 1 ∧
    (doRequestModel token0 env).attempts ≤ 2 ∧
    (∀ t, loginOutcome (env.loginInp (if token0 = "" then 1 else 0))
        = LoginResult.ok t →
      (doRequestModel token0 env).attempts = 2 ∧
      (doRequestModel token0 env).tokenUsedOnRetry = some t ∧
      (doRequestModel token0 env).finalToken = t ∧
      (env.attempt 1 = some 401 →
        (doRequestModel token0 env).result
          = Except.error (ReqError.statusError 401))) ∧
    (isOkResult (loginOutcome (env.loginInp (if token0 = "" then 1 else 0)))
        = false →
      (doRequestModel token0 env).attempts = 1 ∧
      (doRequestModel token0 env).result = Except.error ReqError.authFailed) := by
  by_cases ht : token0 = ""
  · replace hens : isOkResult (loginOutcome (env.loginInp 0)) = true := by
      rcases hens with h | h
      · exact absurd ht h
      · exact h
    cases hlo : loginOutcome (env.loginInp 0) with
    | errStatus c => rw [hlo] at hens; simp [isOkResult] at hens
    | errDecode => rw [hlo] at hens; simp [isOkResult] at hens
    | errNoToken => rw [hlo] at hens; simp [isOkResult] at hens
    | ok t0 =>
        cases hre : loginOutcome (env.loginInp 1) with
        | ok t1 =>
            cases hat1 : env.attempt 1 with
            | none =>
                simp [doRequestModel, ht, hlo, h401, hre, hat1, isOkResult]
            | some s1 =>
                simp [doRequestModel, ht, hlo, h401, hre, hat1, isOkResult]
                intro hs
                subst hs
                simp [finishRequest]
        | errStatus c =>
            simp [doRequestModel, ht, hlo, h401, hre, isOkResult]
        | errDecode =>
            simp [doRequestModel, ht, hlo, h401, hre, isOkResult]
        | errNoToken =>
            simp [doRequestModel, ht, hlo, h401, hre, isOkResult]
  · cases hre : loginOutcome (env.loginInp 0) with
    | ok t1 =>
        cases hat1 : env.attempt 1 with
        | none =>
            simp [doRequestModel, ht, h401, hre, hat1, isOkResult]
        | some s1 =>
            simp [doRequestModel, ht, h401, hre, hat1, isOkResult]
            intro hs
            subst hs
            simp [finishRequest]
    | errStatus c =>
        simp [doRequestModel, ht, h401, hre, isOkResult]
    | errDecode =>
        simp [doRequestModel, ht, h401, hre, isOkResult]
    | errNoToken =>
        simp [doRequestModel, ht, h401, hre, isOkResult]

/-- Witness for C1: a cached token, both sends answered 401, re-login
succeeding with token "new". -/
theorem doRequest_single_retry_policy_witness :
    (doRequestModel "tok" env401).reLogins = 1 ∧
    (doRequestModel "tok" env401).attempts ≤ 2 ∧
    (doRequestModel "tok" env401).finalToken = "new" ∧
    (doRequestModel "tok" env401).result
      = Except.error (ReqError.statusError 401) :=
  ⟨(doRequest_single_retry_policy "tok" env401 (Or.inl (by decide)) rfl).1,
   (doRequest_single_retry_policy "tok" env401 (Or.inl (by decide)) rfl).2.1,
   ((doRequest_single_retry_policy "tok" env401 (Or.inl (by decide)) rfl).2.2.1
      "new" (by decide)).2.2.1,
   ((doRequest_single_retry_policy "tok" env401 (Or.inl (by decide)) rfl).2.2.1
      "new" (by decide)).2.2.2 rfl⟩

/-- C5 counterexample: on HTTP 200 with body `{"foo": "bar"}` — valid JSON
holding no token under any conventional field name — `Login` nevertheless
succeeds and caches "bar", because the recursive search accepts any
non-empty string leaf; so success is not limited to the two routes the
claim names. -/
theorem login_conv_token_counterexample :
    (loginApply "" loginInpNoConv).2 = LoginResult.ok "bar" ∧
    (loginApply "" loginInpNoConv).1 = "bar" ∧
    loginInpNoConv.status < 400 ∧
    loginInpNoConv.parsed = some jsonNoConv ∧
    specHasConvToken jsonNoConv = false := by
  refine ⟨by decide, by decide, by decide, rfl, by decide⟩

/-- C5 (amended): `Login` succeeds and caches a credential exactly when
the status is below 400 and either the body parses as JSON in which the
recursive search finds a token — any non-empty string leaf, conventional
field names only taking priority — or the body is not JSON and trims to a
non-empty raw string; on every failure the cached credential is
unchanged, and on success it becomes the found token. -/
theorem login_success_characterization (token : String) (inp : LoginInput) :
    (isOkResult (loginApply token inp).2 = true ↔
      (inp.status < 400 ∧
        ((∃ j, inp.parsed = some j ∧ (findToken j).isSome) ∨
         (inp.parsed = none ∧ trimSpace inp.rawBody ≠ "")))) ∧
    (isOkResult (loginApply token inp).2 = false →
      (loginApply token inp).1 = token) ∧
    (∀ t, loginOutcome inp = LoginResult.ok t → (loginApply token inp).1 = t) := by
  by_cases hst : 400 ≤ inp.status
  · have hlt : ¬ inp.status < 400 := by omega
    simp [loginApply, loginOutcome, isOkResult, hst, hlt]
  · have hlt : inp.status < 400 := by omega
    cases hp : inp.parsed with
    | none =>
        by_cases htr : trimSpace inp.rawBody = ""
        · simp [loginApply, loginOutcome, isOkResult, hst, hp, htr]
        · simp [loginApply, loginOutcome, isOkResult, hst, hlt, hp, htr]
    | some j =>
        cases hf : findToken j with
        | none =>
            simp [loginApply, loginOutcome, isOkResult, hst, hp, hf]
        | some t =>
            simp [loginApply, loginOutcome, isOkResult, hst, hlt, hp, hf]

/-- Witness for C5's amended theorem: a 200 response carrying
`{"token": "tk"}` succeeds and caches "tk". -/
theorem login_success_characterization_witness :
    isOkResult (loginApply "old" loginInpTok).2 = true ∧
    (loginApply "old" loginInpTok).1 = "tk" :=
  ⟨(login_success_characterization "old" loginInpTok).1.mpr
      ⟨by decide,
       Or.inl ⟨Json.obj [("token", Json.str "tk")], rfl, by decide⟩⟩,
   (login_success_characterization "old" loginInpTok).2.2 "tk" (by decide)⟩

end UmamiExporter
